import Mathlib

/-!
Shallow embedding of `cloud_server_plus.py` (fire-detection cloud server).

Sensor values, timestamps and thresholds are modelled as rationals (the
Python code only compares and copies them).  Python `deque(maxlen=n)` is
modelled as a `List` whose append drops the oldest element beyond the
capacity.  The event log keeps only the message strings (the source pairs
each message with `datetime.now()`, which no verified property reads).
-/

/-- `MAX_DATA_POINTS = 100` from cloud_server_plus.py. -/
def MAX_DATA_POINTS : Nat := 100

/-- `ALARM_THRESHOLD = 60.0` from cloud_server_plus.py. -/
def ALARM_THRESHOLD : ℚ := 60

/-- `SPRINKLER_THRESHOLD = 65.0` from cloud_server_plus.py. -/
def SPRINKLER_THRESHOLD : ℚ := 65

/-- Append to a Python `deque(maxlen=cap)`: the new element goes to the right
and, past capacity, the oldest (leftmost) element is evicted. -/
def dequeAppend (cap : Nat) (xs : List α) (x : α) : List α :=
  let ys := xs ++ [x]
  ys.drop (ys.length - cap)

/-- `class SensorData` (cloud_server_plus.py lines 29-50): five bounded
series, a categorical car status and the two latches. -/
structure SensorData where
  timestamps : List ℚ
  smoke : List ℚ
  co2 : List ℚ
  fire : List ℚ
  car_temp : List ℚ
  car_status : String
  alarm_status : Bool
  sprinkler_status : Bool
deriving Repr, DecidableEq

/-- `SensorData.__init__`: empty deques, status "UNKNOWN", latches off. -/
def SensorData.init : SensorData :=
  { timestamps := [], smoke := [], co2 := [], fire := [], car_temp := []
    car_status := "UNKNOWN", alarm_status := false, sprinkler_status := false }

/-- `SensorData.add_room(ts, smoke, co2, fire)`: appends to the four room
series, substituting `0.0` for a missing (`None`) value. -/
def SensorData.add_room (d : SensorData) (ts : ℚ)
    (smoke co2 fire : Option ℚ) : SensorData :=
  { d with
    timestamps := dequeAppend MAX_DATA_POINTS d.timestamps ts
    smoke := dequeAppend MAX_DATA_POINTS d.smoke (smoke.getD 0)
    co2 := dequeAppend MAX_DATA_POINTS d.co2 (co2.getD 0)
    fire := dequeAppend MAX_DATA_POINTS d.fire (fire.getD 0) }

/-- `SensorData.add_car(ts, temp, status)`: appends timestamp and engine
temperature (default `0.0`), and overwrites `car_status` when a status is
given. -/
def SensorData.add_car (d : SensorData) (ts : ℚ)
    (temp : Option ℚ) (status : Option String) : SensorData :=
  { d with
    timestamps := dequeAppend MAX_DATA_POINTS d.timestamps ts
    car_temp := dequeAppend MAX_DATA_POINTS d.car_temp (temp.getD 0)
    car_status := status.getD d.car_status }

/-- The four keys of `self.sensor_data` in `CloudServer.__init__`. -/
inductive Entity
  | r1200400
  | r1211371
  | car1
  | car2
deriving Repr, DecidableEq

/-- String key → entity, as used by `room in self.sensor_data`. -/
def entityOfKey : String → Option Entity
  | "1200400" => some .r1200400
  | "1211371" => some .r1211371
  | "car1" => some .car1
  | "car2" => some .car2
  | _ => none

/-- The shared server state touched by data ingestion, scenarios and
operator commands: `self.sensor_data` (four fixed entries), `self.events`,
`self.packet_count`, `self.last_seq`. -/
structure ServerState where
  room_1200400 : SensorData
  room_1211371 : SensorData
  car1 : SensorData
  car2 : SensorData
  events : List String
  packet_count : Nat
  last_seq : Nat
deriving Repr, DecidableEq

/-- Read `self.sensor_data[e]`. -/
def ServerState.getEntity (st : ServerState) : Entity → SensorData
  | .r1200400 => st.room_1200400
  | .r1211371 => st.room_1211371
  | .car1 => st.car1
  | .car2 => st.car2

/-- Write `self.sensor_data[e] = d`. -/
def ServerState.setEntity (st : ServerState) (e : Entity) (d : SensorData) :
    ServerState :=
  match e with
  | .r1200400 => { st with room_1200400 := d }
  | .r1211371 => { st with room_1211371 := d }
  | .car1 => { st with car1 := d }
  | .car2 => { st with car2 := d }

/-- `CloudServer.add_event(msg)`: append to `self.events` (the wall-clock
component of the source pair is dropped). -/
def ServerState.add_event (st : ServerState) (msg : String) : ServerState :=
  { st with events := st.events ++ [msg] }

/-- Server state right after `CloudServer.__init__` (one startup event). -/
def initialServer : ServerState :=
  { room_1200400 := SensorData.init, room_1211371 := SensorData.init
    car1 := SensorData.init, car2 := SensorData.init
    events := ["Starting cloud server ..."], packet_count := 0, last_seq := 0 }

/-- The `sensors` map of a `DATA` message: the keys `_on_data` reads,
each possibly absent. -/
structure Sensors where
  smoke1 : Option ℚ := none
  co2_1 : Option ℚ := none
  fire1 : Option ℚ := none
  smoke2 : Option ℚ := none
  co2_2 : Option ℚ := none
  fire2 : Option ℚ := none
  car1_temp : Option ℚ := none
  car1_status : Option String := none
  car2_temp : Option ℚ := none
  car2_status : Option String := none
deriving Repr, DecidableEq

/-- `_on_data`, Room-1200400 block (lines 267-275): ingest the sample with
`0.0` defaults, then the two independent level latches with their events. -/
def roomBranch1 (st : ServerState) (ts : ℚ) (s : Sensors) : ServerState :=
  if s.smoke1.isSome || s.co2_1.isSome || s.fire1.isSome then
    let smoke := s.smoke1.getD 0
    let co2 := s.co2_1.getD 0
    let fire := s.fire1.getD 0
    let st1 := { st with
      room_1200400 := st.room_1200400.add_room ts (some smoke) (some co2) (some fire) }
    let st2 :=
      if ALARM_THRESHOLD ≤ smoke ∧ st1.room_1200400.alarm_status = false then
        ({ st1 with room_1200400 :=
            { st1.room_1200400 with alarm_status := true } }).add_event
          "🔔 ALARM_1200400 -> ON"
      else st1
    if SPRINKLER_THRESHOLD ≤ smoke ∧ st2.room_1200400.sprinkler_status = false then
      ({ st2 with room_1200400 :=
          { st2.room_1200400 with sprinkler_status := true } }).add_event
        "💦 SPRINKLER_1200400 -> ON"
    else st2
  else st

/-- `_on_data`, Room-1211371 block (lines 278-286). -/
def roomBranch2 (st : ServerState) (ts : ℚ) (s : Sensors) : ServerState :=
  if s.smoke2.isSome || s.co2_2.isSome || s.fire2.isSome then
    let smoke := s.smoke2.getD 0
    let co2 := s.co2_2.getD 0
    let fire := s.fire2.getD 0
    let st1 := { st with
      room_1211371 := st.room_1211371.add_room ts (some smoke) (some co2) (some fire) }
    let st2 :=
      if ALARM_THRESHOLD ≤ smoke ∧ st1.room_1211371.alarm_status = false then
        ({ st1 with room_1211371 :=
            { st1.room_1211371 with alarm_status := true } }).add_event
          "🔔 ALARM_1211371 -> ON"
      else st1
    if SPRINKLER_THRESHOLD ≤ smoke ∧ st2.room_1211371.sprinkler_status = false then
      ({ st2 with room_1211371 :=
          { st2.room_1211371 with sprinkler_status := true } }).add_event
        "💦 SPRINKLER_1211371 -> ON"
    else st2
  else st

/-- `_on_data`, Car-1 block (lines 289-295): temperature defaults to `25.0`,
status to `"UNKNOWN"`; an event is appended only on an actual change. -/
def carBranch1 (st : ServerState) (ts : ℚ) (s : Sensors) : ServerState :=
  if s.car1_temp.isSome || s.car1_status.isSome then
    let temp := s.car1_temp.getD 25
    let status := s.car1_status.getD "UNKNOWN"
    let prev := st.car1.car_status
    let st1 := { st with car1 := st.car1.add_car ts (some temp) (some status) }
    if prev ≠ status then
      st1.add_event ("🚗 Car1 " ++ prev ++ " -> " ++ status)
    else st1
  else st

/-- `_on_data`, Car-2 block (lines 298-304). -/
def carBranch2 (st : ServerState) (ts : ℚ) (s : Sensors) : ServerState :=
  if s.car2_temp.isSome || s.car2_status.isSome then
    let temp := s.car2_temp.getD 25
    let status := s.car2_status.getD "UNKNOWN"
    let prev := st.car2.car_status
    let st1 := { st with car2 := st.car2.add_car ts (some temp) (some status) }
    if prev ≠ status then
      st1.add_event ("🚙 Car2 " ++ prev ++ " -> " ++ status)
    else st1
  else st

/-- `CloudServer._on_data(data)`: bookkeeping counters, then the four
entity blocks in source order. -/
def onData (st : ServerState) (ts : ℚ) (seq : Nat) (s : Sensors) : ServerState :=
  let st0 := { st with
    last_seq := max st.last_seq seq, packet_count := st.packet_count + 1 }
  carBranch2 (carBranch1 (roomBranch2 (roomBranch1 st0 ts s) ts s) ts s) ts s

/-- `device.startswith(pre)` on character lists (executable in the kernel,
unlike `String.startsWith`). -/
def charsStartWith : List Char → List Char → Bool
  | _, [] => true
  | [], _ :: _ => false
  | c :: cs, p :: ps => (c = p) && charsStartWith cs ps

/-- `CloudServer._control_device(device, state)` (lines 409-421): manual
latch override keyed by a `ALARM_`/`SPRINK_` device string (`device[6:]`
resp. `device[7:]` is the entity key); unknown entities are a no-op. -/
def controlDevice (st : ServerState) (device : String) (state : Bool) :
    ServerState :=
  if charsStartWith device.toList "ALARM_".toList then
    match entityOfKey (String.mk (device.toList.drop 6)) with
    | some e =>
        ((st.setEntity e { st.getEntity e with alarm_status := state }).add_event
          ("🔔 " ++ device ++ " -> " ++ (if state then "ON" else "OFF")))
    | none => st
  else if charsStartWith device.toList "SPRINK_".toList then
    match entityOfKey (String.mk (device.toList.drop 7)) with
    | some e =>
        ((st.setEntity e { st.getEntity e with sprinkler_status := state }).add_event
          ("💦 " ++ device ++ " -> " ++ (if state then "ON" else "OFF")))
    | none => st
  else st

/-- The fields `_process_message` / `_on_data` / `_on_heartbeat` read from a
successfully `json.loads`-decoded line: `type` (default `""`),
`gateway_id` (possibly absent), `seq` (default `0`), `sensors`
(default empty). -/
structure ParsedMsg where
  type : String := ""
  gateway_id : Option String := none
  seq : Nat := 0
  sensors : Sensors := {}
deriving Repr, DecidableEq

/-- One entry of `self.clients[addr] = (sock, last_seen, gateway_id)`: the
socket handle is implicit in the address. -/
structure Session where
  last_seen : ℚ
  gateway : String
deriving Repr, DecidableEq

/-- Remote addresses, abstracted to naturals. -/
abbrev Addr := Nat

/-- `self.clients`: the session registry. -/
abbrev Registry := List (Addr × Session)

/-- The registry update of `_process_message` (lines 239-242): when the
address is registered, store the current time and
`data.get('gateway_id', gw)` — the message's id when the key is present,
otherwise the previously stored one. -/
def touchSession (reg : Registry) (addr : Addr) (now : ℚ)
    (gw : Option String) : Registry :=
  reg.map fun p =>
    if p.1 = addr then (p.1, ⟨now, gw.getD p.2.gateway⟩) else p

/-- `CloudServer._process_message(sock, addr, line)` (lines 232-248):
malformed JSON is logged and dropped; a decoded message refreshes the
session, then dispatches on `type` (`HEARTBEAT` is log-only). The decoder
(`json.loads` plus field extraction) is passed in as a function. -/
def processMessage (dec : List Char → Option ParsedMsg) (now : ℚ) (addr : Addr)
    (st : ServerState) (reg : Registry) (line : List Char) :
    ServerState × Registry :=
  match dec line with
  | none => (st, reg)
  | some m =>
      let reg1 := touchSession reg addr now m.gateway_id
      if m.type = "HEARTBEAT" then (st, reg1)
      else if m.type = "DATA" then (onData st now m.seq m.sensors, reg1)
      else (st, reg1)

/-- The framing loop of `_client_loop` (lines 217-220) applied to a whole
buffer: `while '\n' in buffer: line, buffer = buffer.split('\n', 1)`.
Returns the complete (newline-terminated) lines in order and the trailing
partial line. -/
def extractLines : List Char → List (List Char) × List Char
  | [] => ([], [])
  | c :: rest =>
      let r := extractLines rest
      if c = '\n' then ([] :: r.1, r.2)
      else
        match r.1 with
        | [] => ([], c :: r.2)
        | l :: ls => ((c :: l) :: ls, r.2)

/-- Feed one received chunk into the partial-line buffer and extract the
complete lines, as `_client_loop` does after `buffer += data.decode(...)`. -/
def feedChunk (buf chunk : List Char) : List (List Char) × List Char :=
  extractLines (buf ++ chunk)

/-- Successive reads: fold `feedChunk` from an empty buffer, collecting all
complete lines in order. -/
def feedAll (chunks : List (List Char)) : List (List Char) × List Char :=
  chunks.foldl
    (fun acc ch =>
      let r := feedChunk acc.2 ch
      (acc.1 ++ r.1, r.2))
    ([], [])

/-- Per-connection handler state: the partial-line buffer and whether the
socket is still open (`CONNECTED` vs `CLOSED`). -/
structure ConnState where
  buffer : List Char
  isOpen : Bool
deriving Repr, DecidableEq

/-- Outcome of one `sock.recv` in `_client_loop`: a chunk of bytes, a
`socket.timeout`, EOF (`not data`), or any other exception. -/
inductive ReadEvent
  | chunk (bytes : List Char)
  | timeout
  | eof
  | ioError
deriving Repr, DecidableEq

/-- `self.clients.pop(addr, None)` in the `finally` block of `_client_loop`. -/
def removeClient (reg : Registry) (addr : Addr) : Registry :=
  reg.filter fun p => decide (p.1 ≠ addr)

/-- One iteration of `_client_loop` (lines 208-230): a timeout is ignored
(`pass`); any other exception is logged and the loop re-entered; EOF breaks
out, reaching the `finally` block that closes the socket and removes the
session; a data chunk is appended to the buffer and every complete line is
processed in order. -/
def clientStep (dec : List Char → Option ParsedMsg) (now : ℚ) (addr : Addr)
    (st : ServerState) (reg : Registry) (c : ConnState) (ev : ReadEvent) :
    ServerState × Registry × ConnState :=
  if c.isOpen = false then (st, reg, c)
  else
    match ev with
    | .timeout => (st, reg, c)
    | .ioError => (st, reg, c)
    | .eof => (st, removeClient reg addr, { c with isOpen := false })
    | .chunk bytes =>
        let r := feedChunk c.buffer bytes
        let sr := r.1.foldl
          (fun a l => processMessage dec now addr a.1 a.2 l) (st, reg)
        (sr.1, sr.2, { c with buffer := r.2 })

/-- `CloudServer._send_control_all(command, params)` (lines 398-407): walk
`list(self.clients.items())` and `sendall` the encoded CONTROL message to
each; a failed send is only logged. `sendOk` abstracts whether a given
session's write succeeds. Returns the addresses actually delivered to and
the registry afterwards. -/
def sendControlAll (sendOk : Addr → Bool) (reg : Registry) :
    List Addr × Registry :=
  (reg.foldl (fun acc p => if sendOk p.1 then acc ++ [p.1] else acc) [], reg)

/-- One loop iteration of `_scenario_fire1` (lines 460-468): synthetic
sample `(val, val*10, val*0.6)` into room 1200400 plus the same two latch
checks `_on_data` performs. -/
def scenarioFire1Step (st : ServerState) (ts val : ℚ) : ServerState :=
  let st1 := { st with
    room_1200400 := st.room_1200400.add_room ts (some val) (some (val * 10))
      (some (val * 0.6)) }
  let st2 :=
    if ALARM_THRESHOLD ≤ val ∧ st1.room_1200400.alarm_status = false then
      ({ st1 with room_1200400 :=
          { st1.room_1200400 with alarm_status := true } }).add_event
        "🔔 ALARM_1200400 -> ON"
    else st1
  if SPRINKLER_THRESHOLD ≤ val ∧ st2.room_1200400.sprinkler_status = false then
    ({ st2 with room_1200400 :=
        { st2.room_1200400 with sprinkler_status := true } }).add_event
      "💦 SPRINKLER_1200400 -> ON"
  else st2

/-- One loop iteration of `_scenario_fire2` (lines 473-481). -/
def scenarioFire2Step (st : ServerState) (ts val : ℚ) : ServerState :=
  let st1 := { st with
    room_1211371 := st.room_1211371.add_room ts (some val) (some (val * 10))
      (some (val * 0.6)) }
  let st2 :=
    if ALARM_THRESHOLD ≤ val ∧ st1.room_1211371.alarm_status = false then
      ({ st1 with room_1211371 :=
          { st1.room_1211371 with alarm_status := true } }).add_event
        "🔔 ALARM_1211371 -> ON"
    else st1
  if SPRINKLER_THRESHOLD ≤ val ∧ st2.room_1211371.sprinkler_status = false then
    ({ st2 with room_1211371 :=
        { st2.room_1211371 with sprinkler_status := true } }).add_event
      "💦 SPRINKLER_1211371 -> ON"
  else st2

/-- One loop iteration of `_scenario_co2_high` (lines 488-492):
`add_room(ts, smoke=None, co2=co2v, fire=None)` on the chosen room
(`'1200400' if room == '1200400' else '1211371'`). -/
def scenarioCo2Step (st : ServerState) (room : String) (ts co2v : ℚ) :
    ServerState :=
  if room = "1200400" then
    { st with room_1200400 := st.room_1200400.add_room ts none (some co2v) none }
  else
    { st with room_1211371 := st.room_1211371.add_room ts none (some co2v) none }

/-- Opening mutation of `_scenario_car1` (line 496): the status is set
directly and the fixed event `PARKED -> RUNNING` is appended regardless of
the previous status. -/
def scenarioCar1Start (st : ServerState) : ServerState :=
  ({ st with car1 := { st.car1 with car_status := "RUNNING" } }).add_event
    "🚗 Car1 PARKED -> RUNNING"

/-- One loop iteration of `_scenario_car1` (lines 498-502):
`add_car(ts, temp, "RUNNING")`, no event. -/
def scenarioCar1Step (st : ServerState) (ts temp : ℚ) : ServerState :=
  { st with car1 := st.car1.add_car ts (some temp) (some "RUNNING") }

/-- Closing mutation of `_scenario_car1` (line 504): direct status write
plus the fixed event `RUNNING -> OVERHEATING`. -/
def scenarioCar1Stop (st : ServerState) : ServerState :=
  ({ st with car1 := { st.car1 with car_status := "OVERHEATING" } }).add_event
    "🚗 Car1 RUNNING -> OVERHEATING"

/-- Opening mutation of `_scenario_car2` (line 508). -/
def scenarioCar2Start (st : ServerState) : ServerState :=
  ({ st with car2 := { st.car2 with car_status := "RUNNING" } }).add_event
    "🚙 Car2 PARKED -> RUNNING"

/-- One loop iteration of `_scenario_car2` (lines 510-514). -/
def scenarioCar2Step (st : ServerState) (ts temp : ℚ) : ServerState :=
  { st with car2 := st.car2.add_car ts (some temp) (some "RUNNING") }

/-- Closing mutation of `_scenario_car2` (line 516). -/
def scenarioCar2Stop (st : ServerState) : ServerState :=
  ({ st with car2 := { st.car2 with car_status := "OVERHEATING" } }).add_event
    "🚙 Car2 RUNNING -> OVERHEATING"

/-- The per-room body of `_scenario_normal`'s first loop (lines 520-525):
clear each latch that is set, appending one event per latch cleared. -/
def scenarioNormalClearRoom (st : ServerState) (e : Entity) (roomKey : String) :
    ServerState :=
  let st1 :=
    if (st.getEntity e).alarm_status then
      (st.setEntity e { st.getEntity e with alarm_status := false }).add_event
        ("🔔 ALARM_" ++ roomKey ++ " -> OFF")
    else st
  if (st1.getEntity e).sprinkler_status then
    (st1.setEntity e { st1.getEntity e with sprinkler_status := false }).add_event
      ("💦 SPRINKLER_" ++ roomKey ++ " -> OFF")
  else st1

/-- The per-car body of `_scenario_normal`'s second loop (lines 526-529):
park the car, appending an event when the status actually changes. -/
def scenarioNormalParkCar (st : ServerState) (e : Entity) (carKey : String) :
    ServerState :=
  let old := (st.getEntity e).car_status
  if old ≠ "PARKED" then
    (st.setEntity e { st.getEntity e with car_status := "PARKED" }).add_event
      ("🚗 " ++ carKey ++ " " ++ old ++ " -> PARKED")
  else st

/-- `_scenario_normal` (lines 518-529): clear both rooms' latches, then
park both cars. -/
def scenarioNormal (st : ServerState) : ServerState :=
  scenarioNormalParkCar
    (scenarioNormalParkCar
      (scenarioNormalClearRoom
        (scenarioNormalClearRoom st .r1200400 "1200400") .r1211371 "1211371")
      .car1 "CAR1")
    .car2 "CAR2"

/-- One `add_event` of `_scenario_test` (lines 531-541): events only. -/
def scenarioTestEvent (st : ServerState) (msg : String) : ServerState :=
  st.add_event msg

/-- The three shared structures named by the design: `self.sensor_data`,
`self.clients`, `self.events`. -/
inductive SharedTarget
  | entityStore
  | sessionRegistry
  | eventLog
deriving Repr, DecidableEq

/-- One read or write of shared state, tagged with whether the source
statement executes inside a `with self.lock:` block. -/
structure SharedAccess where
  target : SharedTarget
  underLock : Bool
deriving Repr, DecidableEq

/-- Shared-state accesses performed by `_on_data` (lines 255-307), in
source order for a message carrying every sensor key with latch-triggering
values. `_on_data` contains no `with self.lock:` block, so every access is
unlocked: per room, the `add_room` write, the latch read/write pairs and
their `add_event` appends; per car, the `car_status` read, the `add_car`
write and the transition `add_event`. -/
def onDataAccesses : List SharedAccess :=
  [⟨.entityStore, false⟩, ⟨.entityStore, false⟩, ⟨.entityStore, false⟩,
   ⟨.eventLog, false⟩, ⟨.entityStore, false⟩, ⟨.entityStore, false⟩,
   ⟨.eventLog, false⟩,
   ⟨.entityStore, false⟩, ⟨.entityStore, false⟩, ⟨.entityStore, false⟩,
   ⟨.eventLog, false⟩, ⟨.entityStore, false⟩, ⟨.entityStore, false⟩,
   ⟨.eventLog, false⟩,
   ⟨.entityStore, false⟩, ⟨.entityStore, false⟩, ⟨.eventLog, false⟩,
   ⟨.entityStore, false⟩, ⟨.entityStore, false⟩, ⟨.eventLog, false⟩]

/-- Shared-state accesses of one `_scenario_fire1` iteration
(lines 462-467): `add_room`, latch read/writes and events, none inside a
`with self.lock:` block. -/
def scenarioFire1Accesses : List SharedAccess :=
  [⟨.entityStore, false⟩, ⟨.entityStore, false⟩, ⟨.entityStore, false⟩,
   ⟨.eventLog, false⟩, ⟨.entityStore, false⟩, ⟨.entityStore, false⟩,
   ⟨.eventLog, false⟩]

/-- Session-registry accesses that the source does wrap in
`with self.lock:`: the insert in `_accept_loop` (lines 199-200), the
read/update in `_process_message` (lines 239-242), the `pop` in
`_client_loop`'s `finally` (lines 228-229), the iteration in
`_send_control_all` (lines 401-402) and in `stop` (lines 547-548). -/
def registryAccesses : List SharedAccess :=
  [⟨.sessionRegistry, true⟩, ⟨.sessionRegistry, true⟩,
   ⟨.sessionRegistry, true⟩, ⟨.sessionRegistry, true⟩,
   ⟨.sessionRegistry, true⟩, ⟨.sessionRegistry, true⟩]

/-- Every state-mutating server operation: a decoded DATA message, an
operator `control` command, the per-tick mutations of the seven scenarios.
Interleavings of live ingestion and scenario ticks are arbitrary lists of
these. -/
inductive ServerOp
  | dataMsg (ts : ℚ) (seq : Nat) (s : Sensors)
  | control (device : String) (state : Bool)
  | fire1 (ts val : ℚ)
  | fire2 (ts val : ℚ)
  | co2High (room : String) (ts v : ℚ)
  | car1Start
  | car1Step (ts temp : ℚ)
  | car1Stop
  | car2Start
  | car2Step (ts temp : ℚ)
  | car2Stop
  | normal
  | testEvent (msg : String)
deriving Repr

/-- Dispatch a `ServerOp` to the corresponding source routine. -/
def applyOp (st : ServerState) : ServerOp → ServerState
  | .dataMsg ts seq s => onData st ts seq s
  | .control device state => controlDevice st device state
  | .fire1 ts val => scenarioFire1Step st ts val
  | .fire2 ts val => scenarioFire2Step st ts val
  | .co2High room ts v => scenarioCo2Step st room ts v
  | .car1Start => scenarioCar1Start st
  | .car1Step ts temp => scenarioCar1Step st ts temp
  | .car1Stop => scenarioCar1Stop st
  | .car2Start => scenarioCar2Start st
  | .car2Step ts temp => scenarioCar2Step st ts temp
  | .car2Stop => scenarioCar2Stop st
  | .normal => scenarioNormal st
  | .testEvent msg => scenarioTestEvent st msg

/-- Run a sequence of server operations. -/
def applyOps (st : ServerState) (ops : List ServerOp) : ServerState :=
  ops.foldl applyOp st

/-- Room alignment: the four room series move in lock-step. -/
def roomAligned (d : SensorData) : Prop :=
  d.smoke.length = d.timestamps.length ∧
  d.co2.length = d.timestamps.length ∧
  d.fire.length = d.timestamps.length

/-- Vehicle alignment: timestamps and engine temperatures move in
lock-step. -/
def carAligned (d : SensorData) : Prop :=
  d.car_temp.length = d.timestamps.length

/-- The per-entity sequence-alignment invariant of the whole store. -/
def aligned (st : ServerState) : Prop :=
  roomAligned st.room_1200400 ∧ roomAligned st.room_1211371 ∧
  carAligned st.car1 ∧ carAligned st.car2

/-- Capacity invariant: every series of every entity holds at most
`MAX_DATA_POINTS` samples. -/
def capacityOk (d : SensorData) : Prop :=
  d.timestamps.length ≤ MAX_DATA_POINTS ∧
  d.smoke.length ≤ MAX_DATA_POINTS ∧
  d.co2.length ≤ MAX_DATA_POINTS ∧
  d.fire.length ≤ MAX_DATA_POINTS ∧
  d.car_temp.length ≤ MAX_DATA_POINTS

/-- Capacity invariant for the whole store. -/
def capacityOkAll (st : ServerState) : Prop :=
  capacityOk st.room_1200400 ∧ capacityOk st.room_1211371 ∧
  capacityOk st.car1 ∧ capacityOk st.car2

/-- A DATA message triggers room 1200400's alarm check iff its block runs
and the (defaulted) smoke value is at least `ALARM_THRESHOLD`. -/
def room1Trig (s : Sensors) : Bool :=
  (s.smoke1.isSome || s.co2_1.isSome || s.fire1.isSome) &&
    decide (ALARM_THRESHOLD ≤ s.smoke1.getD 0)

/-- Likewise for room 1211371. -/
def room2Trig (s : Sensors) : Bool :=
  (s.smoke2.isSome || s.co2_2.isSome || s.fire2.isSome) &&
    decide (ALARM_THRESHOLD ≤ s.smoke2.getD 0)

/-- A trace of decoded DATA messages: `(timestamp, seq, sensors)` triples
fed through `_on_data` in order. -/
def runData (st : ServerState) (trace : List (ℚ × Nat × Sensors)) : ServerState :=
  trace.foldl (fun a x => onData a x.1 x.2.1 x.2.2) st

/-- Number of false→true transitions of room 1200400's `alarm_status`
along a trace of ingested DATA messages. -/
def room1Flips (st : ServerState) : List (ℚ × Nat × Sensors) → Nat
  | [] => 0
  | x :: xs =>
      let st1 := onData st x.1 x.2.1 x.2.2
      (if st.room_1200400.alarm_status = false ∧
          st1.room_1200400.alarm_status = true then 1 else 0)
        + room1Flips st1 xs

/-- Likewise for room 1211371. -/
def room2Flips (st : ServerState) : List (ℚ × Nat × Sensors) → Nat
  | [] => 0
  | x :: xs =>
      let st1 := onData st x.1 x.2.1 x.2.2
      (if st.room_1211371.alarm_status = false ∧
          st1.room_1211371.alarm_status = true then 1 else 0)
        + room2Flips st1 xs

/-- A pure sequence of room ingests from a fresh `SensorData`, sample value
`v` ingested as the smoke reading (timestamp reused as the value). -/
def roomSmokeFold (vals : List ℚ) : SensorData :=
  vals.foldl (fun d v => d.add_room v (some v) none none) SensorData.init

/-- Concrete 101-sample run for `C2_ring_buffer`. -/
def valsW : List ℚ := (List.range (MAX_DATA_POINTS + 1)).map fun n => (n : ℚ)

/-- A decoder that rejects every line (e.g. no line is valid JSON). -/
def decNone : List Char → Option ParsedMsg := fun _ => none

/-- A session used in concrete runs: just-connected, identity unknown. -/
def sessU : Session := ⟨0, "UNKNOWN"⟩

/-- Three live sessions. -/
def regThree : Registry := [(0, sessU), (1, sessU), (2, sessU)]

/-- A write outcome where exactly session 1's `sendall` raises. -/
def sendOkNot1 : Addr → Bool := fun a => decide (a ≠ 1)

/-- A registry holding exactly the session under test. -/
def regOne : Registry := [(0, sessU)]

/-- A freshly connected handler: empty buffer, socket open. -/
def connOpen : ConnState := ⟨[], true⟩

/-- A decoder delivering two HEARTBEATs that declare different gateway
identities: line `a` declares `"A"`, any other line declares `"B"`. -/
def decTwoGw : List Char → Option ParsedMsg := fun l =>
  if l = ['a'] then some { type := "HEARTBEAT", gateway_id := some "A" }
  else some { type := "HEARTBEAT", gateway_id := some "B" }

/-- A DATA `sensors` payload reporting car 1 running. -/
def carSensorsRunning : Sensors := { car1_temp := some 30, car1_status := some "RUNNING" }

/-- The server state after ingesting one such payload. -/
def stRunning : ServerState := onData initialServer 1 1 carSensorsRunning

/-! ## Lemmas about the bounded deque -/

theorem dequeAppend_length (cap : Nat) (xs : List α) (x : α) :
    (dequeAppend cap xs x).length = min (xs.length + 1) cap := by
  simp [dequeAppend]
  omega

theorem dequeAppend_le (cap : Nat) (xs : List α) (x : α) :
    (dequeAppend cap xs x).length ≤ cap := by
  rw [dequeAppend_length]
  omega

theorem dequeAppend_full (cap : Nat) (xs : List α) (x : α)
    (hcap : 0 < cap) (h : xs.length = cap) :
    dequeAppend cap xs x = xs.drop 1 ++ [x] := by
  simp only [dequeAppend, List.length_append, List.length_cons, List.length_nil]
  have h1 : xs.length + 1 - cap = 1 := by omega
  rw [h1, List.drop_append_of_le_length (by omega)]

theorem dequeAppend_foldl_go (cap : Nat) (vals : List α) :
    ∀ acc : List α, acc.length ≤ cap →
      vals.foldl (dequeAppend cap) acc =
        (acc ++ vals).drop ((acc ++ vals).length - cap) := by
  induction vals with
  | nil =>
      intro acc hacc
      have h0 : acc.length - cap = 0 := by omega
      simp [h0]
  | cons v vs ih =>
      intro acc hacc
      rw [List.foldl_cons, ih (dequeAppend cap acc v) (dequeAppend_le cap acc v)]
      have e1 : dequeAppend cap acc v = (acc ++ [v]).drop (acc.length + 1 - cap) := by
        simp [dequeAppend]
      rw [e1]
      have hj : acc.length + 1 - cap ≤ (acc ++ [v]).length := by simp
      rw [← List.drop_append_of_le_length hj, List.drop_drop]
      have hlists : (acc ++ [v]) ++ vs = acc ++ v :: vs := by simp
      rw [hlists]
      congr 1
      have hlen : ((acc ++ [v]).drop (acc.length + 1 - cap)).length
          = acc.length + 1 - (acc.length + 1 - cap) := by
        simp [List.length_drop]
      simp only [List.length_append, List.length_drop, List.length_cons,
        List.length_nil]
      omega

theorem dequeAppend_foldl (cap : Nat) (vals : List α) :
    vals.foldl (dequeAppend cap) [] = vals.drop (vals.length - cap) := by
  have h := dequeAppend_foldl_go cap vals [] (by simp)
  simpa using h

/-! ## Projection lemmas -/

@[simp] theorem add_room_alarm (d : SensorData) (ts : ℚ) (a b c : Option ℚ) :
    (d.add_room ts a b c).alarm_status = d.alarm_status := rfl

@[simp] theorem add_room_sprinkler (d : SensorData) (ts : ℚ) (a b c : Option ℚ) :
    (d.add_room ts a b c).sprinkler_status = d.sprinkler_status := rfl

@[simp] theorem add_room_car_status (d : SensorData) (ts : ℚ) (a b c : Option ℚ) :
    (d.add_room ts a b c).car_status = d.car_status := rfl

@[simp] theorem add_car_alarm (d : SensorData) (ts : ℚ) (t : Option ℚ) (s : Option String) :
    (d.add_car ts t s).alarm_status = d.alarm_status := rfl

@[simp] theorem add_car_sprinkler (d : SensorData) (ts : ℚ) (t : Option ℚ) (s : Option String) :
    (d.add_car ts t s).sprinkler_status = d.sprinkler_status := rfl

@[simp] theorem add_event_room1 (st : ServerState) (m : String) :
    (st.add_event m).room_1200400 = st.room_1200400 := rfl

@[simp] theorem add_event_room2 (st : ServerState) (m : String) :
    (st.add_event m).room_1211371 = st.room_1211371 := rfl

@[simp] theorem add_event_car1 (st : ServerState) (m : String) :
    (st.add_event m).car1 = st.car1 := rfl

@[simp] theorem add_event_car2 (st : ServerState) (m : String) :
    (st.add_event m).car2 = st.car2 := rfl

@[simp] theorem add_event_events (st : ServerState) (m : String) :
    (st.add_event m).events = st.events ++ [m] := rfl

/-! ## Which entities each `_on_data` block touches -/

theorem roomBranch1_room2 (st : ServerState) (ts : ℚ) (s : Sensors) :
    (roomBranch1 st ts s).room_1211371 = st.room_1211371 := by
  simp only [roomBranch1]
  split <;> first | rfl | (split <;> first | rfl | (split <;> rfl))

theorem roomBranch1_car1 (st : ServerState) (ts : ℚ) (s : Sensors) :
    (roomBranch1 st ts s).car1 = st.car1 := by
  simp only [roomBranch1]
  split <;> first | rfl | (split <;> first | rfl | (split <;> rfl))

theorem roomBranch1_car2 (st : ServerState) (ts : ℚ) (s : Sensors) :
    (roomBranch1 st ts s).car2 = st.car2 := by
  simp only [roomBranch1]
  split <;> first | rfl | (split <;> first | rfl | (split <;> rfl))

theorem roomBranch2_room1 (st : ServerState) (ts : ℚ) (s : Sensors) :
    (roomBranch2 st ts s).room_1200400 = st.room_1200400 := by
  simp only [roomBranch2]
  split <;> first | rfl | (split <;> first | rfl | (split <;> rfl))

theorem roomBranch2_car1 (st : ServerState) (ts : ℚ) (s : Sensors) :
    (roomBranch2 st ts s).car1 = st.car1 := by
  simp only [roomBranch2]
  split <;> first | rfl | (split <;> first | rfl | (split <;> rfl))

theorem roomBranch2_car2 (st : ServerState) (ts : ℚ) (s : Sensors) :
    (roomBranch2 st ts s).car2 = st.car2 := by
  simp only [roomBranch2]
  split <;> first | rfl | (split <;> first | rfl | (split <;> rfl))

theorem carBranch1_room1 (st : ServerState) (ts : ℚ) (s : Sensors) :
    (carBranch1 st ts s).room_1200400 = st.room_1200400 := by
  simp only [carBranch1]
  split <;> first | rfl | (split <;> rfl)

theorem carBranch1_room2 (st : ServerState) (ts : ℚ) (s : Sensors) :
    (carBranch1 st ts s).room_1211371 = st.room_1211371 := by
  simp only [carBranch1]
  split <;> first | rfl | (split <;> rfl)

theorem carBranch1_car2 (st : ServerState) (ts : ℚ) (s : Sensors) :
    (carBranch1 st ts s).car2 = st.car2 := by
  simp only [carBranch1]
  split <;> first | rfl | (split <;> rfl)

theorem carBranch2_room1 (st : ServerState) (ts : ℚ) (s : Sensors) :
    (carBranch2 st ts s).room_1200400 = st.room_1200400 := by
  simp only [carBranch2]
  split <;> first | rfl | (split <;> rfl)

theorem carBranch2_room2 (st : ServerState) (ts : ℚ) (s : Sensors) :
    (carBranch2 st ts s).room_1211371 = st.room_1211371 := by
  simp only [carBranch2]
  split <;> first | rfl | (split <;> rfl)

theorem carBranch2_car1 (st : ServerState) (ts : ℚ) (s : Sensors) :
    (carBranch2 st ts s).car1 = st.car1 := by
  simp only [carBranch2]
  split <;> first | rfl | (split <;> rfl)

/-! ## Alarm-latch characterization (C1) -/

theorem roomBranch1_alarm (st : ServerState) (ts : ℚ) (s : Sensors) :
    (roomBranch1 st ts s).room_1200400.alarm_status
      = (st.room_1200400.alarm_status || room1Trig s) := by
  simp only [roomBranch1, room1Trig]
  split
  · split
    · split <;>
        rcases Bool.eq_false_or_eq_true st.room_1200400.alarm_status with ha | ha <;>
          simp_all
    · split <;>
        rcases Bool.eq_false_or_eq_true st.room_1200400.alarm_status with ha | ha <;>
          simp_all
  · simp_all

theorem roomBranch2_alarm (st : ServerState) (ts : ℚ) (s : Sensors) :
    (roomBranch2 st ts s).room_1211371.alarm_status
      = (st.room_1211371.alarm_status || room2Trig s) := by
  simp only [roomBranch2, room2Trig]
  split
  · split
    · split <;>
        rcases Bool.eq_false_or_eq_true st.room_1211371.alarm_status with ha | ha <;>
          simp_all
    · split <;>
        rcases Bool.eq_false_or_eq_true st.room_1211371.alarm_status with ha | ha <;>
          simp_all
  · simp_all

theorem onData_room1_alarm (st : ServerState) (ts : ℚ) (seq : Nat) (s : Sensors) :
    (onData st ts seq s).room_1200400.alarm_status
      = (st.room_1200400.alarm_status || room1Trig s) := by
  simp only [onData]
  rw [carBranch2_room1, carBranch1_room1, roomBranch2_room1, roomBranch1_alarm]

theorem onData_room2_alarm (st : ServerState) (ts : ℚ) (seq : Nat) (s : Sensors) :
    (onData st ts seq s).room_1211371.alarm_status
      = (st.room_1211371.alarm_status || room2Trig s) := by
  simp only [onData]
  rw [carBranch2_room2, carBranch1_room2, roomBranch2_alarm, roomBranch1_room2]

theorem runData_room1_alarm (trace : List (ℚ × Nat × Sensors)) :
    ∀ st : ServerState,
      (runData st trace).room_1200400.alarm_status
        = (st.room_1200400.alarm_status || trace.any fun x => room1Trig x.2.2) := by
  induction trace with
  | nil => intro st; simp [runData]
  | cons x xs ih =>
      intro st
      show (runData (onData st x.1 x.2.1 x.2.2) xs).room_1200400.alarm_status = _
      rw [ih, onData_room1_alarm]
      simp [Bool.or_assoc]

theorem runData_room2_alarm (trace : List (ℚ × Nat × Sensors)) :
    ∀ st : ServerState,
      (runData st trace).room_1211371.alarm_status
        = (st.room_1211371.alarm_status || trace.any fun x => room2Trig x.2.2) := by
  induction trace with
  | nil => intro st; simp [runData]
  | cons x xs ih =>
      intro st
      show (runData (onData st x.1 x.2.1 x.2.2) xs).room_1211371.alarm_status = _
      rw [ih, onData_room2_alarm]
      simp [Bool.or_assoc]

theorem room1Flips_of_true (l : List (ℚ × Nat × Sensors)) :
    ∀ st : ServerState, st.room_1200400.alarm_status = true →
      room1Flips st l = 0 := by
  induction l with
  | nil => intro st _; rfl
  | cons x xs ih =>
      intro st h
      have h1 : (onData st x.1 x.2.1 x.2.2).room_1200400.alarm_status = true := by
        rw [onData_room1_alarm, h, Bool.true_or]
      simp only [room1Flips, h, ih _ h1]
      simp

theorem room2Flips_of_true (l : List (ℚ × Nat × Sensors)) :
    ∀ st : ServerState, st.room_1211371.alarm_status = true →
      room2Flips st l = 0 := by
  induction l with
  | nil => intro st _; rfl
  | cons x xs ih =>
      intro st h
      have h1 : (onData st x.1 x.2.1 x.2.2).room_1211371.alarm_status = true := by
        rw [onData_room2_alarm, h, Bool.true_or]
      simp only [room2Flips, h, ih _ h1]
      simp

theorem room1Flips_le_one (l : List (ℚ × Nat × Sensors)) :
    ∀ st : ServerState, room1Flips st l ≤ 1 := by
  induction l with
  | nil => intro st; simp [room1Flips]
  | cons x xs ih =>
      intro st
      simp only [room1Flips]
      split
      · rename_i h
        rw [room1Flips_of_true xs _ h.2]
      · simpa using ih (onData st x.1 x.2.1 x.2.2)

theorem room2Flips_le_one (l : List (ℚ × Nat × Sensors)) :
    ∀ st : ServerState, room2Flips st l ≤ 1 := by
  induction l with
  | nil => intro st; simp [room2Flips]
  | cons x xs ih =>
      intro st
      simp only [room2Flips]
      split
      · rename_i h
        rw [room2Flips_of_true xs _ h.2]
      · simpa using ih (onData st x.1 x.2.1 x.2.2)

/-- C1: once a DATA sample with smoke ≥ `ALARM_THRESHOLD` is processed by
`_on_data`, the room's `alarm_status` is true and remains true across all
subsequent ingested samples (the flag after any trace equals its previous
value OR-ed with "some sample in the trace triggered"), it transitions
false→true at most once within any ingestion-only trace, and an operator
`control ALARM_<room> off` resets it to false. -/
theorem C1_alarm_latch :
    (∀ (st : ServerState) (trace : List (ℚ × Nat × Sensors)),
        (runData st trace).room_1200400.alarm_status
          = (st.room_1200400.alarm_status || trace.any fun x => room1Trig x.2.2)) ∧
    (∀ (st : ServerState) (trace : List (ℚ × Nat × Sensors)),
        (runData st trace).room_1211371.alarm_status
          = (st.room_1211371.alarm_status || trace.any fun x => room2Trig x.2.2)) ∧
    (∀ (st : ServerState) (trace : List (ℚ × Nat × Sensors)),
        room1Flips st trace ≤ 1) ∧
    (∀ (st : ServerState) (trace : List (ℚ × Nat × Sensors)),
        room2Flips st trace ≤ 1) ∧
    (∀ st : ServerState,
        (controlDevice st "ALARM_1200400" false).room_1200400.alarm_status = false) ∧
    (∀ st : ServerState,
        (controlDevice st "ALARM_1211371" false).room_1211371.alarm_status = false) := by
  refine ⟨?_, ?_, ?_, ?_, ?_, ?_⟩
  · intro st trace; exact runData_room1_alarm trace st
  · intro st trace; exact runData_room2_alarm trace st
  · intro st trace; exact room1Flips_le_one trace st
  · intro st trace; exact room2Flips_le_one trace st
  · intro st; rfl
  · intro st; rfl

/-! ## Ring-buffer capacity (C2) -/

theorem roomSmokeFold_go (vals : List ℚ) :
    ∀ d : SensorData,
      (vals.foldl (fun d v => d.add_room v (some v) none none) d).smoke
        = vals.foldl (dequeAppend MAX_DATA_POINTS) d.smoke := by
  induction vals with
  | nil => intro d; rfl
  | cons v vs ih =>
      intro d
      rw [List.foldl_cons, List.foldl_cons, ih]
      rfl

theorem roomSmokeFold_smoke (vals : List ℚ) :
    (roomSmokeFold vals).smoke = vals.drop (vals.length - MAX_DATA_POINTS) := by
  rw [roomSmokeFold, roomSmokeFold_go]
  show vals.foldl (dequeAppend MAX_DATA_POINTS) [] = _
  exact dequeAppend_foldl _ _

/-- C2: every per-metric series is capped at `MAX_DATA_POINTS = 100`
samples; an ingest at capacity evicts exactly the oldest sample; a run of
N+1 ingests from empty retains exactly the last N samples, so the first
one is gone. -/
theorem C2_ring_buffer :
    (∀ (d : SensorData) (ts : ℚ) (a b c : Option ℚ), capacityOk d →
        capacityOk (d.add_room ts a b c)) ∧
    (∀ (d : SensorData) (ts : ℚ) (t : Option ℚ) (s : Option String), capacityOk d →
        capacityOk (d.add_car ts t s)) ∧
    (∀ (d : SensorData) (ts : ℚ) (a b c : Option ℚ),
        d.smoke.length = MAX_DATA_POINTS →
        (d.add_room ts a b c).smoke = d.smoke.drop 1 ++ [a.getD 0]) ∧
    (∀ vals : List ℚ,
        (roomSmokeFold vals).smoke = vals.drop (vals.length - MAX_DATA_POINTS)) ∧
    (∀ (vals : List ℚ) (v0 : ℚ), vals.length = MAX_DATA_POINTS + 1 →
        vals.Nodup → vals.head? = some v0 →
        v0 ∉ (roomSmokeFold vals).smoke) := by
  refine ⟨?_, ?_, ?_, roomSmokeFold_smoke, ?_⟩
  · intro d ts a b c h
    exact ⟨dequeAppend_le _ _ _, dequeAppend_le _ _ _, dequeAppend_le _ _ _,
      dequeAppend_le _ _ _, h.2.2.2.2⟩
  · intro d ts t s h
    exact ⟨dequeAppend_le _ _ _, h.2.1, h.2.2.1, h.2.2.2.1, dequeAppend_le _ _ _⟩
  · intro d ts a b c h
    show dequeAppend MAX_DATA_POINTS d.smoke (a.getD 0) = _
    exact dequeAppend_full _ _ _ (by decide) h
  · intro vals v0 hlen hnd hhead
    rw [roomSmokeFold_smoke, hlen]
    cases vals with
    | nil => simp at hlen
    | cons w ws =>
        have hw : w = v0 := by simpa using hhead
        subst hw
        have hdrop : (w :: ws).drop (MAX_DATA_POINTS + 1 - MAX_DATA_POINTS) = ws := by
          norm_num
        rw [hdrop]
        exact (List.nodup_cons.mp hnd).1

/-- Witness for C2: 101 pairwise-distinct samples ingested from empty leave
a 100-sample buffer from which the first sample is gone. -/
theorem C2_ring_buffer_witness :
    valsW.length = MAX_DATA_POINTS + 1 ∧ valsW.Nodup ∧
      valsW.head? = some 0 ∧ (0 : ℚ) ∉ (roomSmokeFold valsW).smoke := by
  have h1 : valsW.length = MAX_DATA_POINTS + 1 := by decide
  have h2 : valsW.Nodup := by decide
  have h3 : valsW.head? = some 0 := by decide
  exact ⟨h1, h2, h3, C2_ring_buffer.2.2.2.2 valsW 0 h1 h2 h3⟩

/-! ## Protocol framing (C3, C4) -/

/-- C3: a line that fails to decode is discarded: `_process_message`
returns with the server state and session registry untouched, and
processing a chunk never closes the connection. -/
theorem C3_invalid_json_discarded :
    (∀ (dec : List Char → Option ParsedMsg) (now : ℚ) (addr : Addr)
        (st : ServerState) (reg : Registry) (line : List Char),
        dec line = none →
        processMessage dec now addr st reg line = (st, reg)) ∧
    (∀ (dec : List Char → Option ParsedMsg) (now : ℚ) (addr : Addr)
        (st : ServerState) (reg : Registry) (c : ConnState) (bytes : List Char),
        ((clientStep dec now addr st reg c (.chunk bytes)).2.2).isOpen
          = c.isOpen) := by
  constructor
  · intro dec now addr st reg line h
    simp [processMessage, h]
  · intro dec now addr st reg c bytes
    simp only [clientStep]
    split
    · rfl
    · rfl

/-- Witness for C3: a concrete rejected line leaves a concrete state and
registry unchanged. -/
theorem C3_invalid_json_discarded_witness :
    decNone "not-json".toList = none ∧
      processMessage decNone 0 0 initialServer [] "not-json".toList
        = (initialServer, []) :=
  ⟨rfl, C3_invalid_json_discarded.1 decNone 0 0 initialServer [] "not-json".toList rfl⟩


theorem extractLines_cons (c : Char) (l : List Char) :
    extractLines (c :: l) =
      if c = '\n' then ([] :: (extractLines l).1, (extractLines l).2)
      else
        match (extractLines l).1 with
        | [] => ([], c :: (extractLines l).2)
        | x :: xs => ((c :: x) :: xs, (extractLines l).2) := rfl

theorem extractLines_append (a b : List Char) :
    extractLines (a ++ b)
      = ((extractLines a).1 ++ (extractLines ((extractLines a).2 ++ b)).1,
         (extractLines ((extractLines a).2 ++ b)).2) := by
  induction a with
  | nil => simp [extractLines]
  | cons c rest ih =>
      rw [List.cons_append, extractLines_cons, ih, extractLines_cons]
      by_cases hc : c = '\n'
      · simp only [if_pos hc]
        simp
      · simp only [if_neg hc]
        rcases h1 : (extractLines rest).1 with _ | ⟨l, ls⟩
        · simp only [h1, List.nil_append]
          rw [List.cons_append, extractLines_cons]
          simp [if_neg hc]
        · simp [h1]

theorem extractLines_partial_no_nl (s : List Char) : '\n' ∉ (extractLines s).2 := by
  induction s with
  | nil => simp [extractLines]
  | cons c rest ih =>
      rw [extractLines_cons]
      by_cases hc : c = '\n'
      · simpa [if_pos hc] using ih
      · simp only [if_neg hc]
        rcases h1 : (extractLines rest).1 with _ | ⟨l, ls⟩
        · simp only []
          intro hm
          rcases List.mem_cons.mp hm with h | h
          · exact hc h.symm
          · exact ih h
        · simpa using ih

theorem extractLines_no_nl (s : List Char) (h : '\n' ∉ s) :
    extractLines s = ([], s) := by
  induction s with
  | nil => rfl
  | cons c rest ih =>
      have hc : ¬ c = '\n' := fun e => h (by simp [e])
      have hr : '\n' ∉ rest := fun m => h (List.mem_cons_of_mem _ m)
      rw [extractLines_cons, if_neg hc, ih hr]

theorem feedAll_go (chunks : List (List Char)) :
    ∀ (acc : List (List Char)) (buf : List Char), '\n' ∉ buf →
      chunks.foldl
          (fun acc ch =>
            let r := feedChunk acc.2 ch
            (acc.1 ++ r.1, r.2))
          (acc, buf)
        = (acc ++ (extractLines (buf ++ chunks.flatten)).1,
           (extractLines (buf ++ chunks.flatten)).2) := by
  induction chunks with
  | nil =>
      intro acc buf hbuf
      simp [extractLines_no_nl buf hbuf]
  | cons ch chunks ih =>
      intro acc buf hbuf
      rw [List.foldl_cons]
      show chunks.foldl _ (acc ++ (feedChunk buf ch).1, (feedChunk buf ch).2) = _
      rw [ih (acc ++ (feedChunk buf ch).1) (feedChunk buf ch).2 (extractLines_partial_no_nl _)]
      rw [List.flatten_cons]
      rw [show buf ++ (ch ++ chunks.flatten) = (buf ++ ch) ++ chunks.flatten by simp]
      rw [extractLines_append (buf ++ ch) chunks.flatten]
      simp [feedChunk]

theorem feedAll_flatten (chunks : List (List Char)) :
    feedAll chunks = extractLines chunks.flatten := by
  rw [feedAll, feedAll_go chunks [] [] (by simp)]
  simp

theorem clientStep_chunk_append
    (dec : List Char → Option ParsedMsg) (now : ℚ) (addr : Addr)
    (st : ServerState) (reg : Registry) (c : ConnState) (a b : List Char) :
    clientStep dec now addr
        (clientStep dec now addr st reg c (.chunk a)).1
        (clientStep dec now addr st reg c (.chunk a)).2.1
        (clientStep dec now addr st reg c (.chunk a)).2.2 (.chunk b)
      = clientStep dec now addr st reg c (.chunk (a ++ b)) := by
  obtain ⟨buf, o⟩ := c
  rcases o with _ | _
  · simp [clientStep]
  · have e1 : ∀ (st : ServerState) (reg : Registry) (bytes chunkBuf : List Char),
        clientStep dec now addr st reg ⟨chunkBuf, true⟩ (.chunk bytes)
          = (((extractLines (chunkBuf ++ bytes)).1.foldl
                (fun p l => processMessage dec now addr p.1 p.2 l) (st, reg)).1,
             ((extractLines (chunkBuf ++ bytes)).1.foldl
                (fun p l => processMessage dec now addr p.1 p.2 l) (st, reg)).2,
             ⟨(extractLines (chunkBuf ++ bytes)).2, true⟩) := by
      intro st reg bytes chunkBuf
      rfl
    rw [e1 st reg a buf]
    rw [e1 _ _ b _]
    rw [e1 st reg (a ++ b) buf]
    rw [show buf ++ (a ++ b) = (buf ++ a) ++ b by simp]
    rw [extractLines_append (buf ++ a) b]
    simp [List.foldl_append]

/-- C4: the read loop's buffering is fragmentation-invariant — feeding any
sequence of chunks from an empty buffer yields the same complete lines (in
order, each exactly once) and the same trailing partial as one single read
of their concatenation; two consecutive reads compose like their
concatenation at the handler level; and the spec's concrete split HEARTBEAT
example reassembles into exactly one line. -/
theorem C4_line_reassembly :
    (∀ chunks : List (List Char), feedAll chunks = extractLines chunks.flatten) ∧
    (∀ (dec : List Char → Option ParsedMsg) (now : ℚ) (addr : Addr)
        (st : ServerState) (reg : Registry) (c : ConnState) (a b : List Char),
        clientStep dec now addr
            (clientStep dec now addr st reg c (.chunk a)).1
            (clientStep dec now addr st reg c (.chunk a)).2.1
            (clientStep dec now addr st reg c (.chunk a)).2.2 (.chunk b)
          = clientStep dec now addr st reg c (.chunk (a ++ b))) ∧
    (feedAll ["\x7b\"type\":\"HEARTBEAT\"".toList, ",\"seq\":1\x7d\n".toList]).1
        = ["\x7b\"type\":\"HEARTBEAT\",\"seq\":1\x7d".toList] ∧
    (feedAll ["\x7b\"type\":\"HEARTBEAT\"".toList, ",\"seq\":1\x7d\n".toList]).2
        = [] := by
  refine ⟨feedAll_flatten, clientStep_chunk_append, by decide, by decide⟩

/-! ## Broadcast (C5) -/

theorem sendControlAll_go (sendOk : Addr → Bool) (reg : Registry) :
    ∀ acc : List Addr,
      reg.foldl (fun acc p => if sendOk p.1 then acc ++ [p.1] else acc) acc
        = acc ++ (reg.map Prod.fst).filter sendOk := by
  induction reg with
  | nil => intro acc; simp
  | cons p ps ih =>
      intro acc
      rw [List.foldl_cons]
      by_cases h : sendOk p.1
      · rw [if_pos h, ih]
        simp [h]
      · rw [if_neg h, ih]
        simp [h]

/-- Counterexample to C5 as stated: broadcasting to three sessions where
session 1's write fails still delivers to sessions 0 and 2, but the failed
session is NOT removed — `_send_control_all` leaves the registry
unchanged, so session 1 is still registered afterwards. -/
theorem C5_failed_session_not_removed :
    (sendControlAll sendOkNot1 regThree).1 = [0, 2] ∧
    (sendControlAll sendOkNot1 regThree).2 = regThree ∧
    (1, sessU) ∈ (sendControlAll sendOkNot1 regThree).2 := by
  decide

/-- C5 (amended): a failed write is only logged — the broadcast still
reaches every session whose write succeeds, in registry order, and no
session (failed or not) is removed: the registry is returned unchanged. -/
theorem C5_broadcast_partial_failure :
    ∀ (sendOk : Addr → Bool) (reg : Registry),
      (sendControlAll sendOk reg).1 = (reg.map Prod.fst).filter sendOk ∧
      (sendControlAll sendOk reg).2 = reg := by
  intro sendOk reg
  exact ⟨by simpa using sendControlAll_go sendOk reg [], rfl⟩

/-! ## Connection-handler transitions (C6) -/

/-- Counterexample to C6 as stated: a non-timeout read error does NOT
close the connection or remove the session — `_client_loop` logs it and
re-enters the loop with everything unchanged. -/
theorem C6_io_error_keeps_session :
    clientStep decNone 0 0 initialServer regOne connOpen .ioError
      = (initialServer, regOne, connOpen) ∧
    (0, sessU) ∈ (clientStep decNone 0 0 initialServer regOne connOpen .ioError).2.1 ∧
    ((clientStep decNone 0 0 initialServer regOne connOpen .ioError).2.2).isOpen
      = true := by
  decide

/-- C6 (amended): a read timeout re-enters the loop with all state
unchanged; so does any other non-EOF read error (only logged); EOF alone
transitions the handler to CLOSED, removing exactly the affected session
from the registry and no other. -/
theorem C6_client_loop_transitions :
    (∀ (dec : List Char → Option ParsedMsg) (now : ℚ) (addr : Addr)
        (st : ServerState) (reg : Registry) (c : ConnState),
        c.isOpen = true →
        clientStep dec now addr st reg c .timeout = (st, reg, c)) ∧
    (∀ (dec : List Char → Option ParsedMsg) (now : ℚ) (addr : Addr)
        (st : ServerState) (reg : Registry) (c : ConnState),
        c.isOpen = true →
        clientStep dec now addr st reg c .ioError = (st, reg, c)) ∧
    (∀ (dec : List Char → Option ParsedMsg) (now : ℚ) (addr : Addr)
        (st : ServerState) (reg : Registry) (c : ConnState),
        c.isOpen = true →
        clientStep dec now addr st reg c .eof
          = (st, removeClient reg addr, ⟨c.buffer, false⟩)) ∧
    (∀ (reg : Registry) (addr : Addr) (p : Addr × Session),
        p ∈ removeClient reg addr ↔ (p ∈ reg ∧ p.1 ≠ addr)) := by
  refine ⟨?_, ?_, ?_, ?_⟩
  · intro dec now addr st reg c h
    simp [clientStep, h]
  · intro dec now addr st reg c h
    simp [clientStep, h]
  · intro dec now addr st reg c h
    simp [clientStep, h]
  · intro reg addr p
    simp [removeClient, List.mem_filter]

/-- Witness for C6 (amended): EOF on a concrete open connection closes it
and removes only that session. -/
theorem C6_client_loop_transitions_witness :
    connOpen.isOpen = true ∧
      clientStep decNone 0 0 initialServer regThree connOpen .eof
        = (initialServer, removeClient regThree 0, ⟨[], false⟩) :=
  ⟨rfl, C6_client_loop_transitions.2.2.1 decNone 0 0 initialServer regThree connOpen rfl⟩

/-! ## Session bookkeeping (C7) -/

/-- Counterexample to C7 as stated: after two decoded messages declaring
gateway ids "A" then "B" on the same connection, the registry records "B" —
`data.get('gateway_id', gw)` lets the LAST present id win, not the first. -/
theorem C7_last_gateway_wins :
    (processMessage decTwoGw 2 0
        (processMessage decTwoGw 1 0 initialServer regOne ['a']).1
        (processMessage decTwoGw 1 0 initialServer regOne ['a']).2 ['b']).2
      = [(0, ⟨2, "B"⟩)] ∧
    (processMessage decTwoGw 2 0
        (processMessage decTwoGw 1 0 initialServer regOne ['a']).1
        (processMessage decTwoGw 1 0 initialServer regOne ['a']).2 ['b']).2
      ≠ [(0, ⟨2, "A"⟩)] := by
  decide

/-- C7 (amended): every successful decode refreshes the session's
last-activity timestamp via `touchSession`; a registered session's entry
becomes `(now, gateway_id)` taking the message's id when present and the
stored one otherwise — so the retained identity is the MOST RECENT
`gateway_id` seen (last-writer-wins), with absent keys preserving it. -/
theorem C7_session_touch :
    (∀ (dec : List Char → Option ParsedMsg) (now : ℚ) (addr : Addr)
        (st : ServerState) (reg : Registry) (line : List Char) (m : ParsedMsg),
        dec line = some m →
        (processMessage dec now addr st reg line).2
          = touchSession reg addr now m.gateway_id) ∧
    (∀ (reg : Registry) (addr : Addr) (now : ℚ) (gw : Option String)
        (p : Addr × Session), p ∈ reg → p.1 = addr →
        (addr, (⟨now, gw.getD p.2.gateway⟩ : Session)) ∈ touchSession reg addr now gw) ∧
    (∀ (reg : Registry) (addr : Addr) (n1 n2 : ℚ) (g1 g2 : String),
        touchSession (touchSession reg addr n1 (some g1)) addr n2 (some g2)
          = touchSession reg addr n2 (some g2)) ∧
    (∀ (reg : Registry) (addr : Addr) (n1 n2 : ℚ) (g1 : String),
        touchSession (touchSession reg addr n1 (some g1)) addr n2 none
          = touchSession reg addr n2 (some g1)) := by
  refine ⟨?_, ?_, ?_, ?_⟩
  · intro dec now addr st reg line m h
    simp only [processMessage, h]
    split
    · rfl
    · split
      · rfl
      · rfl
  · intro reg addr now gw p hp hpa
    have hm := List.mem_map_of_mem
      (fun q : Addr × Session =>
        if q.1 = addr then (q.1, (⟨now, gw.getD q.2.gateway⟩ : Session)) else q) hp
    dsimp only at hm
    rw [if_pos hpa, hpa] at hm
    simpa [touchSession] using hm
  · intro reg addr n1 n2 g1 g2
    induction reg with
    | nil => rfl
    | cons q qs ih =>
        simp only [touchSession, List.map_cons] at ih ⊢
        by_cases h : q.1 = addr <;>
          simp [h, ih] <;>
          (intro a b _
           by_cases ha : a = addr <;> simp [ha])
  · intro reg addr n1 n2 g1
    induction reg with
    | nil => rfl
    | cons q qs ih =>
        simp only [touchSession, List.map_cons] at ih ⊢
        by_cases h : q.1 = addr <;>
          simp [h, ih] <;>
          (intro a b _
           by_cases ha : a = addr <;> simp [ha])

/-- Witness for C7 (amended): a concrete decoded message refreshes the
concrete one-session registry. -/
theorem C7_session_touch_witness :
    decTwoGw ['a'] = some { type := "HEARTBEAT", gateway_id := some "A" } ∧
      (processMessage decTwoGw 1 0 initialServer regOne ['a']).2
        = touchSession regOne 0 1 (some "A") :=
  ⟨rfl, C7_session_touch.1 decTwoGw 1 0 initialServer regOne ['a']
    { type := "HEARTBEAT", gateway_id := some "A" } rfl⟩

/-! ## Scenario vs `_on_data` paths (C8) -/

/-- Counterexample to C8 as stated: with car 1 already RUNNING,
`_scenario_car1`'s opening mutation appends the fixed event
`Car1 PARKED -> RUNNING` (a wrong transition, and not a no-op), while
feeding the same status through `_on_data` appends no event at all. -/
theorem C8_scenario_event_divergence :
    stRunning.car1.car_status = "RUNNING" ∧
    (scenarioCar1Start stRunning).events
      = stRunning.events ++ ["🚗 Car1 PARKED -> RUNNING"] ∧
    (onData stRunning 2 2 carSensorsRunning).events = stRunning.events := by
  decide

/-- C8 (amended): the fire scenarios do replicate `_on_data`'s
room-mutation path exactly (same ingest, same latch logic, same events),
but the car scenarios do not: `_scenario_car1` writes the status directly
and unconditionally appends the fixed `PARKED -> RUNNING` event whatever
the previous status, whereas `_on_data`'s car block appends exactly one
event describing the actual transition and none when the status is
unchanged. -/
theorem C8_scenario_paths :
    (∀ (st : ServerState) (ts val : ℚ),
        scenarioFire1Step st ts val
          = roomBranch1 st ts
              { smoke1 := some val, co2_1 := some (val * 10), fire1 := some (val * 0.6) }) ∧
    (∀ (st : ServerState) (ts val : ℚ),
        scenarioFire2Step st ts val
          = roomBranch2 st ts
              { smoke2 := some val, co2_2 := some (val * 10), fire2 := some (val * 0.6) }) ∧
    (∀ st : ServerState,
        (scenarioCar1Start st).events = st.events ++ ["🚗 Car1 PARKED -> RUNNING"] ∧
        (scenarioCar1Start st).car1.car_status = "RUNNING") ∧
    (∀ (st : ServerState) (ts : ℚ) (s : Sensors),
        (s.car1_temp.isSome || s.car1_status.isSome) = true →
        ((s.car1_status.getD "UNKNOWN" = st.car1.car_status →
            (carBranch1 st ts s).events = st.events) ∧
         (s.car1_status.getD "UNKNOWN" ≠ st.car1.car_status →
            (carBranch1 st ts s).events
              = st.events
                ++ ["🚗 Car1 " ++ st.car1.car_status ++ " -> "
                      ++ s.car1_status.getD "UNKNOWN"]))) := by
  refine ⟨?_, ?_, ?_, ?_⟩
  · intro st ts val
    rfl
  · intro st ts val
    rfl
  · intro st
    exact ⟨rfl, rfl⟩
  · intro st ts s hsome
    constructor
    · intro h
      simp only [carBranch1, hsome, if_true]
      rw [if_neg (by intro hne; exact hne h.symm)]
    · intro h
      simp only [carBranch1, hsome, if_true]
      rw [if_pos (by intro he; exact h he.symm)]
      rfl

/-- Witness for C8 (amended): the concrete repeated-status ingest appends
no event through `_on_data`'s car block. -/
theorem C8_scenario_paths_witness :
    (carSensorsRunning.car1_temp.isSome || carSensorsRunning.car1_status.isSome) = true ∧
    carSensorsRunning.car1_status.getD "UNKNOWN" = stRunning.car1.car_status ∧
    (carBranch1 stRunning 2 carSensorsRunning).events = stRunning.events :=
  ⟨rfl, by decide,
    (C8_scenario_paths.2.2.2 stRunning 2 carSensorsRunning rfl).1 (by decide)⟩

/-! ## Capacity and alignment preservation (C9, C10) -/

theorem capacityOk_add_room (d : SensorData) (ts : ℚ) (a b c : Option ℚ)
    (h : capacityOk d) : capacityOk (d.add_room ts a b c) :=
  ⟨dequeAppend_le _ _ _, dequeAppend_le _ _ _, dequeAppend_le _ _ _,
    dequeAppend_le _ _ _, h.2.2.2.2⟩

theorem capacityOk_add_car (d : SensorData) (ts : ℚ) (t : Option ℚ)
    (s : Option String) (h : capacityOk d) : capacityOk (d.add_car ts t s) :=
  ⟨dequeAppend_le _ _ _, h.2.1, h.2.2.1, h.2.2.2.1, dequeAppend_le _ _ _⟩

theorem capacityOkAll_roomBranch1 (st : ServerState) (ts : ℚ) (s : Sensors)
    (h : capacityOkAll st) : capacityOkAll (roomBranch1 st ts s) := by
  obtain ⟨h1, h2, h3, h4⟩ := h
  simp only [roomBranch1]
  split
  · split <;> split <;>
      exact ⟨capacityOk_add_room _ _ _ _ _ h1, h2, h3, h4⟩
  · exact ⟨h1, h2, h3, h4⟩

theorem capacityOkAll_roomBranch2 (st : ServerState) (ts : ℚ) (s : Sensors)
    (h : capacityOkAll st) : capacityOkAll (roomBranch2 st ts s) := by
  obtain ⟨h1, h2, h3, h4⟩ := h
  simp only [roomBranch2]
  split
  · split <;> split <;>
      exact ⟨h1, capacityOk_add_room _ _ _ _ _ h2, h3, h4⟩
  · exact ⟨h1, h2, h3, h4⟩

theorem capacityOkAll_carBranch1 (st : ServerState) (ts : ℚ) (s : Sensors)
    (h : capacityOkAll st) : capacityOkAll (carBranch1 st ts s) := by
  obtain ⟨h1, h2, h3, h4⟩ := h
  simp only [carBranch1]
  split
  · split <;> exact ⟨h1, h2, capacityOk_add_car _ _ _ _ h3, h4⟩
  · exact ⟨h1, h2, h3, h4⟩

theorem capacityOkAll_carBranch2 (st : ServerState) (ts : ℚ) (s : Sensors)
    (h : capacityOkAll st) : capacityOkAll (carBranch2 st ts s) := by
  obtain ⟨h1, h2, h3, h4⟩ := h
  simp only [carBranch2]
  split
  · split <;> exact ⟨h1, h2, h3, capacityOk_add_car _ _ _ _ h4⟩
  · exact ⟨h1, h2, h3, h4⟩

theorem capacityOkAll_clearRoom (st : ServerState) (e : Entity) (k : String)
    (h : capacityOkAll st) : capacityOkAll (scenarioNormalClearRoom st e k) := by
  obtain ⟨h1, h2, h3, h4⟩ := h
  cases e <;>
    · simp only [scenarioNormalClearRoom, ServerState.getEntity, ServerState.setEntity]
      split_ifs <;> exact ⟨h1, h2, h3, h4⟩

theorem capacityOkAll_parkCar (st : ServerState) (e : Entity) (k : String)
    (h : capacityOkAll st) : capacityOkAll (scenarioNormalParkCar st e k) := by
  obtain ⟨h1, h2, h3, h4⟩ := h
  cases e <;>
    · simp only [scenarioNormalParkCar, ServerState.getEntity, ServerState.setEntity]
      split_ifs <;> exact ⟨h1, h2, h3, h4⟩

theorem capacityOkAll_applyOp (st : ServerState) (op : ServerOp)
    (h : capacityOkAll st) : capacityOkAll (applyOp st op) := by
  obtain ⟨h1, h2, h3, h4⟩ := h
  cases op with
  | dataMsg ts seq s =>
      show capacityOkAll (onData st ts seq s)
      simp only [onData]
      exact capacityOkAll_carBranch2 _ _ _ (capacityOkAll_carBranch1 _ _ _
        (capacityOkAll_roomBranch2 _ _ _
          (capacityOkAll_roomBranch1 _ _ _ ⟨h1, h2, h3, h4⟩)))
  | control device state =>
      show capacityOkAll (controlDevice st device state)
      simp only [controlDevice]
      split
      · split
        · rename_i e _
          cases e <;> exact ⟨h1, h2, h3, h4⟩
        · exact ⟨h1, h2, h3, h4⟩
      · split
        · split
          · rename_i e _
            cases e <;> exact ⟨h1, h2, h3, h4⟩
          · exact ⟨h1, h2, h3, h4⟩
        · exact ⟨h1, h2, h3, h4⟩
  | fire1 ts val =>
      show capacityOkAll (scenarioFire1Step st ts val)
      simp only [scenarioFire1Step]
      split <;> split <;>
        exact ⟨capacityOk_add_room _ _ _ _ _ h1, h2, h3, h4⟩
  | fire2 ts val =>
      show capacityOkAll (scenarioFire2Step st ts val)
      simp only [scenarioFire2Step]
      split <;> split <;>
        exact ⟨h1, capacityOk_add_room _ _ _ _ _ h2, h3, h4⟩
  | co2High room ts v =>
      show capacityOkAll (scenarioCo2Step st room ts v)
      simp only [scenarioCo2Step]
      split
      · exact ⟨capacityOk_add_room _ _ _ _ _ h1, h2, h3, h4⟩
      · exact ⟨h1, capacityOk_add_room _ _ _ _ _ h2, h3, h4⟩
  | car1Start => exact ⟨h1, h2, h3, h4⟩
  | car1Step ts temp => exact ⟨h1, h2, capacityOk_add_car _ _ _ _ h3, h4⟩
  | car1Stop => exact ⟨h1, h2, h3, h4⟩
  | car2Start => exact ⟨h1, h2, h3, h4⟩
  | car2Step ts temp => exact ⟨h1, h2, h3, capacityOk_add_car _ _ _ _ h4⟩
  | car2Stop => exact ⟨h1, h2, h3, h4⟩
  | normal =>
      show capacityOkAll (scenarioNormal st)
      exact capacityOkAll_parkCar _ _ _ (capacityOkAll_parkCar _ _ _
        (capacityOkAll_clearRoom _ _ _
          (capacityOkAll_clearRoom _ _ _ ⟨h1, h2, h3, h4⟩)))
  | testEvent msg => exact ⟨h1, h2, h3, h4⟩

theorem roomAligned_add_room (d : SensorData) (ts : ℚ) (a b c : Option ℚ)
    (h : roomAligned d) : roomAligned (d.add_room ts a b c) := by
  obtain ⟨hs, hc, hf⟩ := h
  refine ⟨?_, ?_, ?_⟩ <;>
    simp only [SensorData.add_room, dequeAppend_length]
  · rw [hs]
  · rw [hc]
  · rw [hf]

theorem carAligned_add_car (d : SensorData) (ts : ℚ) (t : Option ℚ)
    (s : Option String) (h : carAligned d) : carAligned (d.add_car ts t s) := by
  simp only [carAligned, SensorData.add_car, dequeAppend_length]
  rw [h]

theorem aligned_roomBranch1 (st : ServerState) (ts : ℚ) (s : Sensors)
    (h : aligned st) : aligned (roomBranch1 st ts s) := by
  obtain ⟨h1, h2, h3, h4⟩ := h
  simp only [roomBranch1]
  split
  · split <;> split <;>
      exact ⟨roomAligned_add_room _ _ _ _ _ h1, h2, h3, h4⟩
  · exact ⟨h1, h2, h3, h4⟩

theorem aligned_roomBranch2 (st : ServerState) (ts : ℚ) (s : Sensors)
    (h : aligned st) : aligned (roomBranch2 st ts s) := by
  obtain ⟨h1, h2, h3, h4⟩ := h
  simp only [roomBranch2]
  split
  · split <;> split <;>
      exact ⟨h1, roomAligned_add_room _ _ _ _ _ h2, h3, h4⟩
  · exact ⟨h1, h2, h3, h4⟩

theorem aligned_carBranch1 (st : ServerState) (ts : ℚ) (s : Sensors)
    (h : aligned st) : aligned (carBranch1 st ts s) := by
  obtain ⟨h1, h2, h3, h4⟩ := h
  simp only [carBranch1]
  split
  · split <;> exact ⟨h1, h2, carAligned_add_car _ _ _ _ h3, h4⟩
  · exact ⟨h1, h2, h3, h4⟩

theorem aligned_carBranch2 (st : ServerState) (ts : ℚ) (s : Sensors)
    (h : aligned st) : aligned (carBranch2 st ts s) := by
  obtain ⟨h1, h2, h3, h4⟩ := h
  simp only [carBranch2]
  split
  · split <;> exact ⟨h1, h2, h3, carAligned_add_car _ _ _ _ h4⟩
  · exact ⟨h1, h2, h3, h4⟩

theorem aligned_clearRoom (st : ServerState) (e : Entity) (k : String)
    (h : aligned st) : aligned (scenarioNormalClearRoom st e k) := by
  obtain ⟨h1, h2, h3, h4⟩ := h
  cases e <;>
    · simp only [scenarioNormalClearRoom, ServerState.getEntity, ServerState.setEntity]
      split_ifs <;> exact ⟨h1, h2, h3, h4⟩

theorem aligned_parkCar (st : ServerState) (e : Entity) (k : String)
    (h : aligned st) : aligned (scenarioNormalParkCar st e k) := by
  obtain ⟨h1, h2, h3, h4⟩ := h
  cases e <;>
    · simp only [scenarioNormalParkCar, ServerState.getEntity, ServerState.setEntity]
      split_ifs <;> exact ⟨h1, h2, h3, h4⟩

theorem aligned_applyOp (st : ServerState) (op : ServerOp)
    (h : aligned st) : aligned (applyOp st op) := by
  obtain ⟨h1, h2, h3, h4⟩ := h
  cases op with
  | dataMsg ts seq s =>
      show aligned (onData st ts seq s)
      simp only [onData]
      exact aligned_carBranch2 _ _ _ (aligned_carBranch1 _ _ _
        (aligned_roomBranch2 _ _ _ (aligned_roomBranch1 _ _ _ ⟨h1, h2, h3, h4⟩)))
  | control device state =>
      show aligned (controlDevice st device state)
      simp only [controlDevice]
      split
      · split
        · rename_i e _
          cases e <;> exact ⟨h1, h2, h3, h4⟩
        · exact ⟨h1, h2, h3, h4⟩
      · split
        · split
          · rename_i e _
            cases e <;> exact ⟨h1, h2, h3, h4⟩
          · exact ⟨h1, h2, h3, h4⟩
        · exact ⟨h1, h2, h3, h4⟩
  | fire1 ts val =>
      show aligned (scenarioFire1Step st ts val)
      simp only [scenarioFire1Step]
      split <;> split <;>
        exact ⟨roomAligned_add_room _ _ _ _ _ h1, h2, h3, h4⟩
  | fire2 ts val =>
      show aligned (scenarioFire2Step st ts val)
      simp only [scenarioFire2Step]
      split <;> split <;>
        exact ⟨h1, roomAligned_add_room _ _ _ _ _ h2, h3, h4⟩
  | co2High room ts v =>
      show aligned (scenarioCo2Step st room ts v)
      simp only [scenarioCo2Step]
      split
      · exact ⟨roomAligned_add_room _ _ _ _ _ h1, h2, h3, h4⟩
      · exact ⟨h1, roomAligned_add_room _ _ _ _ _ h2, h3, h4⟩
  | car1Start => exact ⟨h1, h2, h3, h4⟩
  | car1Step ts temp => exact ⟨h1, h2, carAligned_add_car _ _ _ _ h3, h4⟩
  | car1Stop => exact ⟨h1, h2, h3, h4⟩
  | car2Start => exact ⟨h1, h2, h3, h4⟩
  | car2Step ts temp => exact ⟨h1, h2, h3, carAligned_add_car _ _ _ _ h4⟩
  | car2Stop => exact ⟨h1, h2, h3, h4⟩
  | normal =>
      show aligned (scenarioNormal st)
      exact aligned_parkCar _ _ _ (aligned_parkCar _ _ _
        (aligned_clearRoom _ _ _ (aligned_clearRoom _ _ _ ⟨h1, h2, h3, h4⟩)))
  | testEvent msg => exact ⟨h1, h2, h3, h4⟩

theorem capacityOkAll_applyOps (ops : List ServerOp) :
    ∀ st : ServerState, capacityOkAll st → capacityOkAll (applyOps st ops) := by
  induction ops with
  | nil => intro st h; exact h
  | cons op ops ih =>
      intro st h
      exact ih (applyOp st op) (capacityOkAll_applyOp st op h)

theorem aligned_applyOps (ops : List ServerOp) :
    ∀ st : ServerState, aligned st → aligned (applyOps st ops) := by
  induction ops with
  | nil => intro st h; exact h
  | cons op ops ih =>
      intro st h
      exact ih (applyOp st op) (aligned_applyOp st op h)

/-- Counterexample to C9 as stated: the DATA-ingestion path `_on_data` and
the scenario tick bodies access the entity store and the event log with NO
`with self.lock:` around them — not every shared-state access is under the
lock. -/
theorem C9_unlocked_shared_access :
    ((onDataAccesses ++ scenarioFire1Accesses).all fun a => a.underLock) = false := by
  decide

/-- C9 (amended): only the session-registry accesses are performed under
the shared lock; `_on_data`'s and the fire scenario's entity-store and
event-log accesses are all lock-free. Nevertheless, every per-metric
series stays within the `MAX_DATA_POINTS` bound under any interleaving of
scenario ticks with live DATA ingestion, because each deque append
enforces the bound by itself. -/
theorem C9_locking_and_capacity :
    (registryAccesses.all fun a => a.underLock) = true ∧
    (onDataAccesses.all fun a => !a.underLock) = true ∧
    (scenarioFire1Accesses.all fun a => !a.underLock) = true ∧
    (∀ ops : List ServerOp, capacityOkAll (applyOps initialServer ops)) := by
  refine ⟨by decide, by decide, by decide, ?_⟩
  intro ops
  exact capacityOkAll_applyOps ops initialServer
    (by simp [capacityOkAll, capacityOk, initialServer, SensorData.init])

/-- C10: every server operation (DATA ingest, operator control, any
scenario tick) preserves per-entity sequence alignment — room ingests
append to all four room series in lock-step and vehicle ingests to both
vehicle series — so from the initial state the room entities' timestamps,
smoke, co2 and fire series always have equal length and the vehicle
entities' timestamps and car_temp series always have equal length. -/
theorem C10_sequence_alignment :
    (∀ (d : SensorData) (ts : ℚ) (a b c : Option ℚ), roomAligned d →
        roomAligned (d.add_room ts a b c)) ∧
    (∀ (d : SensorData) (ts : ℚ) (t : Option ℚ) (s : Option String), carAligned d →
        carAligned (d.add_car ts t s)) ∧
    (∀ ops : List ServerOp, aligned (applyOps initialServer ops)) := by
  refine ⟨roomAligned_add_room, carAligned_add_car, ?_⟩
  intro ops
  exact aligned_applyOps ops initialServer
    (by simp [aligned, roomAligned, carAligned, initialServer, SensorData.init])

/-- Witness for C10: a fresh series is aligned and stays aligned after a
concrete partial ingest. -/
theorem C10_sequence_alignment_witness :
    roomAligned SensorData.init ∧
      roomAligned (SensorData.init.add_room 1 (some 2) none none) :=
  ⟨by simp [roomAligned, SensorData.init],
    C10_sequence_alignment.1 SensorData.init 1 (some 2) none none
      (by simp [roomAligned, SensorData.init])⟩
